import Mathlib

set_option maxRecDepth 100000

/-!
Shallow embedding of the receipt-processor rule engines
(`validators.py` and `points_calculator.py`).

Modelling conventions, fixed once for the whole development:

* A Python receipt dict is a record of five optional fields; a missing
  dict key is `none`.  (Values of unexpected runtime type, e.g. a
  non-list under `items`, are outside the model; every claim below is
  about string/list-shaped fields.)
* Python floats are IEEE-754 binary64 values, modelled bit-exactly:
  a finite double is a mantissa-exponent pair of integers (value
  `m * 2 ^ e`, kept canonical with `m` odd or zero), and the special
  values are separate constructors for the two infinities and nan.
  Conversion from a decimal string, addition, subtraction and
  multiplication round the exact rational result to nearest, ties to
  even, overflowing to infinity — the semantics of CPython `float`.
  Subnormal precision (magnitudes below `2 ^ (-1022)`) is not
  modelled; no value derived from the two-decimal receipt grammar
  reaches it.
* `float(s).is_integer()` holds iff the double value is an integer;
  `x % 0.25 == 0` holds for a finite double iff it is an exact
  multiple of 1/4 (`fmod` by the exactly-representable 0.25 is exact),
  and is false on the infinities and nan (`inf % 0.25` is nan).
* Python character classes: the whitespace class `\s` (and the set
  `str.strip` removes, and `str.isspace`) is modelled in full; the
  word class `\w` and `str.isalnum` are modelled on their ASCII
  fragments — all receipts in the claims are ASCII apart from the
  whitespace code points, which the model covers completely.
* A raised `ValueError` in the validator is an `Except.error`; an
  exception inside the scorer (key lookup, unparseable field, or the
  `OverflowError` of `int()` applied to an infinite value) is
  `Option.none`.
-/

namespace ReceiptProcessor

/-- Equality of validation outcomes is decidable (used to evaluate the
validator on concrete receipts). -/
instance {ε α : Type} [DecidableEq ε] [DecidableEq α] : DecidableEq (Except ε α) :=
  fun x y =>
    match x, y with
    | .error a, .error b =>
      if h : a = b then isTrue (by rw [h]) else isFalse (by intro hc; cases hc; exact h rfl)
    | .error _, .ok _ => isFalse (by intro hc; cases hc)
    | .ok _, .error _ => isFalse (by intro hc; cases hc)
    | .ok a, .ok b =>
      if h : a = b then isTrue (by rw [h]) else isFalse (by intro hc; cases hc; exact h rfl)

/-- An IEEE-754 binary64 value as CPython sees it: a finite value
`m * 2 ^ e` (canonical when `m` is odd, or `m = 0` and `e = 0`), or
one of the special values. -/
inductive PyFloat where
  | finite (m : ℤ) (e : ℤ)
  | posInf
  | negInf
  | nan
deriving DecidableEq, Repr

/-- Fueled binary logarithm (the fuel, set to the argument itself,
always suffices: the argument halves each step). -/
def log2Aux : Nat → Nat → Nat
  | 0, _ => 0
  | fuel + 1, n => if 2 ≤ n then log2Aux fuel (n / 2) + 1 else 0

/-- `⌊log2 n⌋` for `n ≥ 1` (and 0 at 0), by fueled halving. -/
def natLog2 (n : Nat) : Nat := log2Aux n n

/-- Strip the factors of two out of a mantissa, raising the exponent,
to reach the canonical odd-mantissa form. -/
def oddify : Nat → Nat → ℤ → Nat × ℤ
  | 0, m, e => (m, e)
  | fuel + 1, m, e => if m % 2 == 0 then oddify fuel (m / 2) (e + 1) else (m, e)

/-- `mant * 2 ^ e ≥ 2 ^ t`, for `mant ≥ 1`, by integer comparison. -/
def valGePow2 (mant : ℕ) (e t : ℤ) : Bool :=
  if t ≤ e then true else decide (2 ^ (t - e).toNat ≤ mant)

/-- Package a sign, a (already correctly rounded, at most 54-bit)
mantissa and an exponent as a `PyFloat`: zero, an overflow to the
signed infinity when the value reaches `2 ^ 1024`, or the canonical
finite form. -/
def mkFinite (sgn : Bool) (mant : ℕ) (e : ℤ) : PyFloat :=
  if mant = 0 then .finite 0 0
  else if valGePow2 mant e 1024 then (if sgn then .negInf else .posInf)
  else
    let p := oddify mant mant e
    .finite (if sgn then -(p.1 : ℤ) else (p.1 : ℤ)) p.2

/-- Round a natural number to 53 significant bits, to nearest with
ties to even, returning the rounded mantissa and the number of bits
shifted out. -/
def roundMant (n : ℕ) : ℕ × ℕ :=
  let k := natLog2 n + 1
  if k ≤ 53 then (n, 0)
  else
    let s := k - 53
    let q := n / 2 ^ s
    let r := n % 2 ^ s
    let half := 2 ^ (s - 1)
    (if half < r then q + 1 else if r < half then q else if q % 2 = 0 then q else q + 1, s)

/-- Round the exact value `M * 2 ^ E` to a binary64 value (round to
nearest, ties to even, overflow to infinity).  This is the result of
an IEEE addition or multiplication whose exact result is `M * 2 ^ E`. -/
def roundInt (M : ℤ) (E : ℤ) : PyFloat :=
  if M = 0 then .finite 0 0
  else
    let p := roundMant M.natAbs
    mkFinite (decide (M < 0)) p.1 (E + (p.2 : ℤ))

/-- `a * 2 ^ x < b * 2 ^ y` on naturals, by shifting to the common
exponent. -/
def ltShiftNat (a : ℕ) (x : ℤ) (b : ℕ) (y : ℤ) : Bool :=
  if x ≤ y then decide (a < b * 2 ^ (y - x).toNat)
  else decide (a * 2 ^ (x - y).toNat < b)

/-- Round the exact rational `n / d` (with `d ≥ 1`) to a binary64
value: locate the binade of `|n| / d`, divide out to a 53-bit integer
scale with exact remainder, round to nearest with ties to even, and
package with sign and overflow.  This is CPython `float()` of a
decimal literal, which is correctly rounded. -/
def roundRat (n : ℤ) (d : ℕ) : PyFloat :=
  if n = 0 then .finite 0 0
  else
    let a := n.natAbs
    let g : ℤ := (natLog2 a : ℤ) - (natLog2 d : ℤ)
    let f : ℤ := if ltShiftNat a 0 d g then g - 1
      else if ltShiftNat a 0 d (g + 1) then g else g + 1
    let e : ℤ := f - 52
    let qrd : ℕ × ℕ × ℕ :=
      if 0 ≤ e then (a / (d * 2 ^ e.toNat), a % (d * 2 ^ e.toNat), d * 2 ^ e.toNat)
      else (a * 2 ^ (-e).toNat / d, a * 2 ^ (-e).toNat % d, d)
    let q := qrd.1
    let r := qrd.2.1
    let den := qrd.2.2
    let m := if den < 2 * r then q + 1 else if 2 * r < den then q
      else if q % 2 = 0 then q else q + 1
    mkFinite (decide (n < 0)) m e

/-- IEEE negation. -/
def negD : PyFloat → PyFloat
  | .finite m e => .finite (-m) e
  | .posInf => .negInf
  | .negInf => .posInf
  | .nan => .nan

/-- IEEE addition: nan propagates, opposite infinities give nan, an
infinity absorbs, and finite values are added exactly and rounded. -/
def addD : PyFloat → PyFloat → PyFloat
  | .nan, _ => .nan
  | _, .nan => .nan
  | .posInf, .negInf => .nan
  | .negInf, .posInf => .nan
  | .posInf, _ => .posInf
  | _, .posInf => .posInf
  | .negInf, _ => .negInf
  | _, .negInf => .negInf
  | .finite m1 e1, .finite m2 e2 =>
    if e1 ≤ e2 then roundInt (m1 + m2 * ((2 ^ (e2 - e1).toNat : ℕ) : ℤ)) e1
    else roundInt (m1 * ((2 ^ (e1 - e2).toNat : ℕ) : ℤ) + m2) e2

/-- IEEE subtraction. -/
def subD (x y : PyFloat) : PyFloat := addD x (negD y)

/-- IEEE multiplication: nan propagates, infinity times zero is nan,
signs combine, and finite values are multiplied exactly and rounded. -/
def mulD : PyFloat → PyFloat → PyFloat
  | .nan, _ => .nan
  | _, .nan => .nan
  | .posInf, .posInf => .posInf
  | .posInf, .negInf => .negInf
  | .negInf, .posInf => .negInf
  | .negInf, .negInf => .posInf
  | .posInf, .finite b _ => if 0 < b then .posInf else if b < 0 then .negInf else .nan
  | .finite a _, .posInf => if 0 < a then .posInf else if a < 0 then .negInf else .nan
  | .negInf, .finite b _ => if 0 < b then .negInf else if b < 0 then .posInf else .nan
  | .finite a _, .negInf => if 0 < a then .negInf else if a < 0 then .posInf else .nan
  | .finite m1 e1, .finite m2 e2 => roundInt (m1 * m2) (e1 + e2)

/-- `abs()` of a double. -/
def absD : PyFloat → PyFloat
  | .finite m e => .finite (m.natAbs : ℤ) e
  | .nan => .nan
  | _ => .posInf

/-- `m1 * 2 ^ e1 < m2 * 2 ^ e2` on integers, by shifting to the common
exponent. -/
def ltShiftInt (m1 : ℤ) (e1 : ℤ) (m2 : ℤ) (e2 : ℤ) : Bool :=
  if e1 ≤ e2 then decide (m1 < m2 * ((2 ^ (e2 - e1).toNat : ℕ) : ℤ))
  else decide (m1 * ((2 ^ (e1 - e2).toNat : ℕ) : ℤ) < m2)

/-- The strict `>` comparison of doubles: any comparison with nan is
false, infinities compare as expected, finite values by value. -/
def gtD : PyFloat → PyFloat → Bool
  | .nan, _ => false
  | _, .nan => false
  | .posInf, .posInf => false
  | .posInf, _ => true
  | _, .posInf => false
  | .negInf, _ => false
  | .finite _ _, .negInf => true
  | .finite m1 e1, .finite m2 e2 => ltShiftInt m2 e2 m1 e1

/-- Python `int()` on a double: truncation toward zero on finite
values; on an infinity it raises `OverflowError` and on nan
`ValueError`, both modelled as `none`. -/
def truncD : PyFloat → Option ℤ
  | .finite m e =>
    if 0 ≤ e then some (m * ((2 ^ e.toNat : ℕ) : ℤ))
    else if 0 ≤ m then some ((m.natAbs / 2 ^ (-e).toNat : ℕ) : ℤ)
    else some (-((m.natAbs / 2 ^ (-e).toNat : ℕ) : ℤ))
  | _ => none

/-- `float.is_integer()`: a finite value with no fractional bits;
false on the infinities and nan. -/
def isIntegerD : PyFloat → Bool
  | .finite m e => decide (0 ≤ e) || decide (m % ((2 ^ (-e).toNat : ℕ) : ℤ) = 0)
  | _ => false

/-- `x % 0.25 == 0`: `fmod` by the exactly-representable 0.25 is
exact, so a finite value passes iff `4 * x` is an integer; an infinite
or nan left operand gives nan, which is not equal to 0. -/
def quarterModZeroD : PyFloat → Bool
  | .finite m e => decide (0 ≤ e + 2) || decide (m % ((2 ^ (-(e + 2)).toNat : ℕ) : ℤ) = 0)
  | _ => false

/-- The double literal `0.2` of the source. -/
def d0_2 : PyFloat := roundRat 2 10

/-- The double literal `0.99` of the source. -/
def d0_99 : PyFloat := roundRat 99 100

/-- The double literal `0.01` of the source. -/
def d0_01 : PyFloat := roundRat 1 100

/-- A receipt line item: the `shortDescription` and `price` strings of
one element of the `items` array. -/
structure Item where
  shortDescription : String
  price : String
deriving DecidableEq, Repr

/-- A candidate receipt as submitted: a string-keyed mapping in which
any of the five expected keys may be absent (`none`). -/
structure CandidateReceipt where
  retailer : Option String
  purchaseDate : Option String
  purchaseTime : Option String
  items : Option (List Item)
  total : Option String
deriving DecidableEq, Repr

/-- The distinct `ValueError` messages `validators.py` can raise, as a
tagged error type (one constructor per message, carrying the data the
message interpolates — the mismatch message carries the two float
values it prints). -/
inductive ValidationError where
  | missingField (name : String)
  | invalidRetailerFormat
  | invalidDateFormat
  | invalidTimeFormat
  | emptyItemsArray
  | invalidItemDescriptionFormat
  | invalidItemPriceFormat
  | invalidPriceValue (description : String)
  | invalidTotalFormat
  | totalMismatch (total itemsSum : PyFloat)
deriving DecidableEq, Repr

/-- Numeric value of an ASCII digit character. -/
def digitVal (c : Char) : Nat := c.toNat - 48

/-- Value of a most-significant-first digit list. -/
def natOfDigits (cs : List Char) : Nat :=
  cs.foldl (fun a c => 10 * a + digitVal c) 0

/-- Python whitespace, in full: the code points matched by `\s` in
`re` string patterns, removed by `str.strip()` and accepted by
`str.isspace()` — the ASCII whitespace and separators 09-0D, 1C-1F
and 20, and the Unicode white space code points. -/
def pySpaceChar (c : Char) : Bool :=
  c == '\t' || c == '\n' || c == '\x0b' || c == '\x0c' || c == '\r'
  || c == '\x1c' || c == '\x1d' || c == '\x1e' || c == '\x1f' || c == ' '
  || c.toNat == 0x85 || c.toNat == 0xa0 || c.toNat == 0x1680
  || (0x2000 ≤ c.toNat && c.toNat ≤ 0x200a)
  || c.toNat == 0x2028 || c.toNat == 0x2029 || c.toNat == 0x202f
  || c.toNat == 0x205f || c.toNat == 0x3000

/-- ASCII fragment of Python's word class `\w`: alphanumerics and the
underscore. -/
def pyWordChar (c : Char) : Bool :=
  c.isAlphanum || c == '_'

/-- Characters admitted by the retailer regex `^[\w\s\-&]+$`. -/
def retailerChar (c : Char) : Bool :=
  pyWordChar c || pySpaceChar c || c == '-' || c == '&'

/-- `re.match(r"^[\w\s\-&]+$", s)` succeeds: `s` is non-empty and every
character is a word character, whitespace, hyphen or ampersand.  (The
`$` of the pattern also matches before one trailing newline, but a
newline is in the class anyway, so the set is unchanged.) -/
def retailerFormatOk (s : String) : Bool :=
  !s.data.isEmpty && s.data.all retailerChar

/-- Characters admitted by the item-description regex `^[\w\s\-]+$`. -/
def descriptionChar (c : Char) : Bool :=
  pyWordChar c || pySpaceChar c || c == '-'

/-- `re.match(r"^[\w\s\-]+$", s)` succeeds. -/
def descriptionFormatOk (s : String) : Bool :=
  !s.data.isEmpty && s.data.all descriptionChar

/-- The reversed characters of a price string with one optional
trailing newline removed: `$` in a Python pattern also matches just
before a final newline, so `re.match(r"^\d+\.\d{2}$", s)` accepts
`"6.49\n"` as well as `"6.49"`. -/
def priceBody (s : String) : List Char :=
  match s.data.reverse with
  | '\n' :: rest => rest
  | l => l

/-- `re.match(r"^\d+\.\d{2}$", s)` succeeds: one or more digits, a dot,
exactly two digits, then the end (or one final newline). -/
def priceFormatOk (s : String) : Bool :=
  match priceBody s with
  | c0 :: c1 :: '.' :: rest => c0.isDigit && c1.isDigit && !rest.isEmpty && rest.all Char.isDigit
  | _ => false

/-- Exact value in cents of a string of the accepted price shape
(unspecified on other strings, where it is never used). -/
def priceCents (s : String) : Nat :=
  match priceBody s with
  | c0 :: c1 :: _ :: rest => 100 * natOfDigits rest.reverse + 10 * digitVal c1 + digitVal c0
  | _ => 0

/-- Python `float(s)` on a string of the accepted price shape: the
decimal value `cents / 100` correctly rounded to binary64 (an
infinity when it overflows — `float()` does not raise on overflow of
a plain decimal literal). -/
def floatOfStr (s : String) : PyFloat :=
  roundRat (priceCents s : ℤ) 100

/-- The scorer-side conversion `float(s)` of a field that was not
necessarily validated: on a string outside the accepted price shape
the call raises `ValueError` (`none`).  (Python `float` accepts some
further forms — signs, exponents, leading whitespace — but the
validator admits only the regex shape, and every claim about the
scorer is under the validated precondition.) -/
def floatParse (s : String) : Option PyFloat :=
  if priceFormatOk s then some (floatOfStr s) else none

/-- Split a character list at every occurrence of `sep` (like Python's
`str.split` with an explicit separator). -/
def splitChar (sep : Char) : List Char → List (List Char)
  | [] => [[]]
  | c :: rest =>
    match splitChar sep rest with
    | g :: gs => if c == sep then [] :: g :: gs else (c :: g) :: gs
    | [] => [[c]]

/-- Parse a 1- or 2-digit numeric field, as the `strptime` directives
`%m`, `%d`, `%H`, `%M` do before their range checks. -/
def twoDigitNat : List Char → Option Nat
  | [c] => if c.isDigit then some (digitVal c) else none
  | [c1, c0] =>
    if c1.isDigit && c0.isDigit then some (10 * digitVal c1 + digitVal c0) else none
  | _ => none

/-- Parse the exactly-4-digit year field of `strptime`'s `%Y`. -/
def fourDigitNat : List Char → Option Nat
  | [c3, c2, c1, c0] =>
    if c3.isDigit && c2.isDigit && c1.isDigit && c0.isDigit then
      some (natOfDigits [c3, c2, c1, c0])
    else none
  | _ => none

/-- Gregorian leap-year rule, as `datetime` applies it. -/
def isLeapYear (y : Nat) : Bool :=
  y % 4 == 0 && (y % 100 != 0 || y % 400 == 0)

/-- Number of days of month `m` in year `y`. -/
def daysInMonth (y m : Nat) : Nat :=
  if m == 2 then (if isLeapYear y then 29 else 28)
  else if m == 4 || m == 6 || m == 9 || m == 11 then 30
  else 31

/-- `datetime.strptime(s, "%Y-%m-%d")`: a 4-digit year (at least 1), a
1-2 digit month in 1..12, a 1-2 digit day that exists in that month of
that year; `none` models the `ValueError` outcome (`strptime` demands
the whole string be consumed, so no trailing newline is allowed). -/
def parseDate (s : String) : Option (Nat × Nat × Nat) :=
  match splitChar '-' s.data with
  | [ys, ms, ds] =>
    match fourDigitNat ys, twoDigitNat ms, twoDigitNat ds with
    | some y, some m, some d =>
      if 1 ≤ y && 1 ≤ m && m ≤ 12 && 1 ≤ d && d ≤ daysInMonth y m then
        some (y, m, d)
      else none
    | _, _, _ => none
  | _ => none

/-- `datetime.strptime(s, "%H:%M")`: a 1-2 digit hour in 0..23 and a
1-2 digit minute in 0..59; `none` models the `ValueError` outcome. -/
def parseTime (s : String) : Option (Nat × Nat) :=
  match splitChar ':' s.data with
  | [hs, ms] =>
    match twoDigitNat hs, twoDigitNat ms with
    | some h, some m => if h ≤ 23 && m ≤ 59 then some (h, m) else none
    | _, _ => none
  | _ => none

/-- `_validate_required_fields`: the first key of the fixed order
retailer, purchaseDate, purchaseTime, items, total that is absent
raises `Missing required field: <name>`. -/
def _validate_required_fields (r : CandidateReceipt) : Except ValidationError Unit :=
  if r.retailer.isNone then .error (.missingField "retailer")
  else if r.purchaseDate.isNone then .error (.missingField "purchaseDate")
  else if r.purchaseTime.isNone then .error (.missingField "purchaseTime")
  else if r.items.isNone then .error (.missingField "items")
  else if r.total.isNone then .error (.missingField "total")
  else .ok ()

/-- `_validate_retailer`. -/
def _validate_retailer (retailer : String) : Except ValidationError Unit :=
  if retailerFormatOk retailer then .ok () else .error .invalidRetailerFormat

/-- `_validate_purchase_date`. -/
def _validate_purchase_date (date_str : String) : Except ValidationError Unit :=
  if (parseDate date_str).isSome then .ok () else .error .invalidDateFormat

/-- `_validate_purchase_time`. -/
def _validate_purchase_time (time_str : String) : Except ValidationError Unit :=
  if (parseTime time_str).isSome then .ok () else .error .invalidTimeFormat

/-- `_validate_item_format` (the `isinstance`/key checks of the source
are discharged by the typed `Item` record; the two regex checks
remain). -/
def _validate_item_format (item : Item) : Except ValidationError Unit :=
  if !descriptionFormatOk item.shortDescription then .error .invalidItemDescriptionFormat
  else if !priceFormatOk item.price then .error .invalidItemPriceFormat
  else .ok ()

/-- `_validate_item_price`: `float(price_str)`, then the negativity
check.  A string of the unsigned price shape converts to a
non-negative double (possibly infinite — `float()` does not raise),
so the `price < 0` branch of the source is unreachable here, exactly
as in Python after the regex check. -/
def _validate_item_price (price_str description : String) : Except ValidationError PyFloat :=
  match floatParse price_str with
  | some p => .ok p
  | none => .error (.invalidPriceValue description)

/-- The `for item in items` loop of `_validate_items_array`,
accumulating the running sum `total_sum` in double arithmetic
(Python starts from the int 0, promoted on the first addition). -/
def itemsLoop : List Item → PyFloat → Except ValidationError PyFloat
  | [], acc => .ok acc
  | item :: rest, acc =>
    match _validate_item_format item with
    | .error e => .error e
    | .ok _ =>
      match _validate_item_price item.price item.shortDescription with
      | .error e => .error e
      | .ok p => itemsLoop rest (addD acc p)

/-- `_validate_items_array`. -/
def _validate_items_array (items : List Item) : Except ValidationError PyFloat :=
  if items.length < 1 then .error .emptyItemsArray
  else itemsLoop items (.finite 0 0)

/-- `_validate_total`: format check, then
`abs(total - items_sum) > 0.01` in double arithmetic (false — hence
acceptance — when the difference is nan, as for two infinite
operands).  The `total < 0` branch and the generic `Invalid total
value` re-raise are unreachable once the unsigned format check has
passed. -/
def _validate_total (total_str : String) (items_sum : PyFloat) : Except ValidationError Unit :=
  if !priceFormatOk total_str then .error .invalidTotalFormat
  else
    let t := floatOfStr total_str
    if gtD (absD (subD t items_sum)) d0_01 then .error (.totalMismatch t items_sum)
    else .ok ()

/-- `validate_receipt`: the required-fields presence loop (in its fixed
order), then retailer, date, time, items and total checks, failing fast
on the first raised error, and returning `True` when all pass. -/
def validate_receipt (r : CandidateReceipt) : Except ValidationError Bool :=
  match r.retailer, r.purchaseDate, r.purchaseTime, r.items, r.total with
  | none, _, _, _, _ => .error (.missingField "retailer")
  | some _, none, _, _, _ => .error (.missingField "purchaseDate")
  | some _, some _, none, _, _ => .error (.missingField "purchaseTime")
  | some _, some _, some _, none, _ => .error (.missingField "items")
  | some _, some _, some _, some _, none => .error (.missingField "total")
  | some retailer, some pd, some pt, some items, some total =>
    match _validate_retailer retailer with
    | .error e => .error e
    | .ok _ =>
      match _validate_purchase_date pd with
      | .error e => .error e
      | .ok _ =>
        match _validate_purchase_time pt with
        | .error e => .error e
        | .ok _ =>
          match _validate_items_array items with
          | .error e => .error e
          | .ok itemsSum =>
            match _validate_total total itemsSum with
            | .error e => .error e
            | .ok _ => .ok true

/-- `_get_retailer_name_points` (rule 1): one point per alphanumeric
character of the retailer name. -/
def _get_retailer_name_points (retailer : String) : Nat :=
  retailer.data.countP Char.isAlphanum

/-- `_get_total_amount_points` (rules 2 and 3): 50 if
`float(total).is_integer()`, plus 25 if `float(total) % 0.25 == 0`;
`none` models the `float` conversion raising on a malformed string. -/
def _get_total_amount_points (total : String) : Option Nat :=
  (floatParse total).map fun t =>
    (if isIntegerD t then 50 else 0) + (if quarterModZeroD t then 25 else 0)

/-- `_get_items_count_points` (rule 4): `len(items) // 2 * 5`. -/
def _get_items_count_points (items : List Item) : Nat :=
  items.length / 2 * 5

/-- Python's `str.strip()`, as the remaining character list. -/
def pyStrip (s : String) : List Char :=
  ((s.data.dropWhile pySpaceChar).reverse.dropWhile pySpaceChar).reverse

/-- The rule-5 arithmetic on one parsed price:
`int(float(price) * 0.2 + 0.99)` in double arithmetic; `none` is the
`OverflowError` of `int()` on an infinite value. -/
def r5term (p : PyFloat) : Option ℤ :=
  truncD (addD (mulD p d0_2) d0_99)

/-- The `for item in items` loop of `_get_description_length_points`:
a qualifying item (trimmed description length divisible by 3) has its
price converted and pushed through the rule-5 arithmetic — and only
qualifying items are converted, so only they can raise. -/
def descriptionLoop : List Item → ℤ → Option ℤ
  | [], acc => some acc
  | item :: rest, acc =>
    if (pyStrip item.shortDescription).length % 3 == 0 then
      match floatParse item.price with
      | some p =>
        match r5term p with
        | some z => descriptionLoop rest (acc + z)
        | none => none
      | none => none
    else descriptionLoop rest acc

/-- `_get_description_length_points` (rule 5). -/
def _get_description_length_points (items : List Item) : Option ℤ :=
  descriptionLoop items 0

/-- The rule-5 contribution of a single item as the program computes
it: the double arithmetic on qualifying items, 0 otherwise; `none`
when the computation raises. -/
def r5double (item : Item) : Option ℤ :=
  if (pyStrip item.shortDescription).length % 3 == 0 then
    (floatParse item.price).bind r5term
  else some 0

/-- `_get_purchase_date_points` (rule 6): 6 points when the
day-of-month is odd; `none` models `strptime` raising. -/
def _get_purchase_date_points (purchase_date : String) : Option Nat :=
  (parseDate purchase_date).map fun ymd => if ymd.2.2 % 2 == 1 then 6 else 0

/-- `_get_purchase_time_points` (rule 7): 10 points when the hour is in
`[14, 16)`; `none` models `strptime` raising. -/
def _get_purchase_time_points (purchase_time : String) : Option Nat :=
  (parseTime purchase_time).map fun hm => if 14 ≤ hm.1 && hm.1 < 16 then 10 else 0

/-- `calculate_points`: the sum of the seven rule contributions, in the
source's evaluation order; `none` models any raised exception (a
missing key, an unparseable field, or rule 5 overflowing in `int()`).
The result is a Python int. -/
def calculate_points (r : CandidateReceipt) : Option Int := do
  let retailer ← r.retailer
  let total ← r.total
  let items ← r.items
  let pd ← r.purchaseDate
  let pt ← r.purchaseTime
  let p1 := _get_retailer_name_points retailer
  let p23 ← _get_total_amount_points total
  let p4 := _get_items_count_points items
  let p5 ← _get_description_length_points items
  let p6 ← _get_purchase_date_points pd
  let p7 ← _get_purchase_time_points pt
  some ((p1 : Int) + (p23 : Int) + (p4 : Int) + p5 + (p6 : Int) + (p7 : Int))

/-- `calculate_points` with the receipt state threaded explicitly
through every step: each statement of the source only reads the
receipt (field lookups and pure helpers), so the translation carries
the incoming record through unchanged and returns it alongside the
points, making the absence of writes provable rather than assumed. -/
def calculate_points_st (r : CandidateReceipt) : Option (Int × CandidateReceipt) := do
  let retailer ← r.retailer
  let total ← r.total
  let items ← r.items
  let pd ← r.purchaseDate
  let pt ← r.purchaseTime
  let p1 := _get_retailer_name_points retailer
  let p23 ← _get_total_amount_points total
  let p4 := _get_items_count_points items
  let p5 ← _get_description_length_points items
  let p6 ← _get_purchase_date_points pd
  let p7 ← _get_purchase_time_points pt
  some (((p1 : Int) + (p23 : Int) + (p4 : Int) + p5 + (p6 : Int) + (p7 : Int)), r)

/-- The end-to-end example receipt of the spec and of the source
docstrings. -/
def targetReceipt : CandidateReceipt :=
  { retailer := some "Target"
    purchaseDate := some "2022-01-01"
    purchaseTime := some "13:01"
    items := some [⟨"Mountain Dew 12PK", "6.49"⟩, ⟨"Emils Cheese Pizza", "12.25"⟩]
    total := some "18.74" }

/-- The same receipt with the declared total raised to `18.75`. -/
def targetReceipt1875 : CandidateReceipt :=
  { targetReceipt with total := some "18.75" }

/-- `targetReceipt` with one field replaced by an arbitrary retailer
string (all other fields held at known-valid values). -/
def retailerProbe (s : String) : CandidateReceipt :=
  { targetReceipt with retailer := some s }

/-- A valid receipt whose single item price makes the rule-5 double
arithmetic round differently from exact arithmetic. -/
def receipt515 : CandidateReceipt :=
  { retailer := some "Target"
    purchaseDate := some "2022-01-01"
    purchaseTime := some "13:01"
    items := some [⟨"ABC", "515.05"⟩]
    total := some "515.05" }

/-- A 310-digit price string: `float()` of it overflows to infinity. -/
def bigPriceStr : String :=
  "1000000000000000000000000000000000000000000000000000000000000000000000000000000000000000000000000000000000000000000000000000000000000000000000000000000000000000000000000000000000000000000000000000000000000000000000000000000000000000000000000000000000000000000000000000000000000000000000000000000000000000000000.00"

/-- A receipt that validates (its infinite total and item sum differ by
nan, which the tolerance comparison does not flag) but whose scorer
run reaches `int()` of an infinite value. -/
def infReceiptA : CandidateReceipt :=
  { retailer := some "Target"
    purchaseDate := some "2022-01-01"
    purchaseTime := some "13:01"
    items := some [⟨"ABC", bigPriceStr⟩]
    total := some bigPriceStr }

/-- A second overflowing receipt (different retailer and description). -/
def infReceiptB : CandidateReceipt :=
  { retailer := some "M&M Corner Market"
    purchaseDate := some "2022-01-01"
    purchaseTime := some "13:01"
    items := some [⟨"ABCDEF", bigPriceStr⟩]
    total := some bigPriceStr }

/-- The claimed (spec-side) retailer character class
`[A-Za-z0-9 _\-&]`, written from the spec's words for comparison with
the code's `[\w\s\-&]`. -/
def claimRetailerChar (c : Char) : Bool :=
  c.isAlphanum || c == ' ' || c == '_' || c == '-' || c == '&'

/-- The claimed (spec-side) rule-5 contribution of one item: when the
trimmed description length is a multiple of 3, the truncation of the
exact value `unitPrice × 0.2 + 0.99` (prices are non-negative, so
truncation toward zero is the floor), and 0 otherwise. -/
def r5contrib (item : Item) : Nat :=
  if (pyStrip item.shortDescription).length % 3 == 0 then
    (Int.floor (((priceCents item.price : ℚ) / 100) * 0.2 + 0.99)).toNat
  else 0

/-- The exact-arithmetic rule-5 contribution on cents, equal to
`r5contrib` (bridging lemma below) and computable by `decide`. -/
def r5code (item : Item) : Nat :=
  if (pyStrip item.shortDescription).length % 3 == 0 then
    (priceCents item.price + 495) / 500
  else 0

/-- The double-arithmetic running sum of a list of price strings, as
`_validate_items_array` computes it. -/
def itemsSumDouble (ps : List String) : PyFloat :=
  ps.foldl (fun a p => addD a (floatOfStr p)) (.finite 0 0)

/-- The spec-side and code-side exact rule-5 item contributions
coincide: truncating `c/100 × 0.2 + 0.99` is integer division
`(c + 495) / 500`. -/
theorem r5contrib_eq_r5code (item : Item) : r5contrib item = r5code item := by
  unfold r5contrib r5code
  by_cases h3 : ((pyStrip item.shortDescription).length % 3 == 0) = true
  · rw [if_pos h3, if_pos h3]
    have hq : ((priceCents item.price : ℚ) / 100) * 0.2 + 0.99
        = ((priceCents item.price + 495 : ℕ) : ℚ) / ((500 : ℕ) : ℚ) := by
      push_cast
      norm_num
      ring
    rw [hq, Rat.floor_natCast_div_natCast, ← Int.natCast_div, Int.toNat_natCast]
  · rw [if_neg h3, if_neg h3]

/-- Positive mantissas stay positive through `mkFinite`: the result is
the positive infinity or a finite value with a natural mantissa. -/
theorem mkFinite_false_shape (mant : ℕ) (e : ℤ) :
    mkFinite false mant e = .posInf
    ∨ ∃ (m2 : ℕ) (e2 : ℤ), mkFinite false mant e = .finite (m2 : ℤ) e2 := by
  unfold mkFinite
  by_cases h0 : mant = 0
  · rw [if_pos h0]; exact Or.inr ⟨0, 0, rfl⟩
  · rw [if_neg h0]
    by_cases h1 : valGePow2 mant e 1024 = true
    · rw [if_pos h1]; exact Or.inl rfl
    · rw [if_neg h1]
      exact Or.inr ⟨(oddify mant mant e).1, (oddify mant mant e).2, rfl⟩

/-- Rounding a non-negative exact value gives the positive infinity or
a finite value with a natural mantissa. -/
theorem roundInt_shape (M E : ℤ) (h : 0 ≤ M) :
    roundInt M E = .posInf
    ∨ ∃ (m2 : ℕ) (e2 : ℤ), roundInt M E = .finite (m2 : ℤ) e2 := by
  unfold roundInt
  by_cases h0 : M = 0
  · rw [if_pos h0]; exact Or.inr ⟨0, 0, rfl⟩
  · rw [if_neg h0]
    have hs : decide (M < 0) = false := by
      simp only [decide_eq_false_iff_not]
      omega
    rw [hs]
    exact mkFinite_false_shape _ _

/-- Rounding a non-negative exact rational gives the positive infinity
or a finite value with a natural mantissa. -/
theorem roundRat_shape (n : ℤ) (d : ℕ) (h : 0 ≤ n) :
    roundRat n d = .posInf
    ∨ ∃ (m2 : ℕ) (e2 : ℤ), roundRat n d = .finite (m2 : ℤ) e2 := by
  unfold roundRat
  by_cases h0 : n = 0
  · rw [if_pos h0]; exact Or.inr ⟨0, 0, rfl⟩
  · rw [if_neg h0]
    have hs : decide (n < 0) = false := by
      simp only [decide_eq_false_iff_not]
      omega
    rw [hs]
    exact mkFinite_false_shape _ _

/-- A parsed price string is a non-negative double or the positive
infinity. -/
theorem floatOfStr_shape (s : String) :
    floatOfStr s = .posInf
    ∨ ∃ (m2 : ℕ) (e2 : ℤ), floatOfStr s = .finite (m2 : ℤ) e2 :=
  roundRat_shape _ _ (Int.natCast_nonneg _)

/-- The bit pattern of the double literal `0.2`. -/
theorem d0_2_eq : d0_2 = .finite 3602879701896397 (-54) := by decide

/-- The bit pattern of the double literal `0.99`. -/
theorem d0_99_eq : d0_99 = .finite 4458563631096791 (-52) := by decide

/-- Definitional unfolding of double addition on finite operands. -/
theorem addD_finite (a ea b eb : ℤ) :
    addD (.finite a ea) (.finite b eb)
      = if ea ≤ eb then roundInt (a + b * ((2 ^ (eb - ea).toNat : ℕ) : ℤ)) ea
        else roundInt (a * ((2 ^ (ea - eb).toNat : ℕ) : ℤ) + b) eb := rfl

/-- Definitional unfolding of double multiplication on finite
operands. -/
theorem mulD_finite (a ea b eb : ℤ) :
    mulD (.finite a ea) (.finite b eb) = roundInt (a * b) (ea + eb) := rfl

/-- Adding two non-negative doubles gives the positive infinity or a
finite value with a natural mantissa. -/
theorem addD_shape (a ea b eb : ℤ) (ha : 0 ≤ a) (hb : 0 ≤ b) :
    addD (.finite a ea) (.finite b eb) = .posInf
    ∨ ∃ (m3 : ℕ) (e3 : ℤ), addD (.finite a ea) (.finite b eb) = .finite (m3 : ℤ) e3 := by
  rw [addD_finite]
  by_cases he : ea ≤ eb
  · rw [if_pos he]
    exact roundInt_shape _ _ (add_nonneg ha (mul_nonneg hb (Int.natCast_nonneg _)))
  · rw [if_neg he]
    exact roundInt_shape _ _ (add_nonneg (mul_nonneg ha (Int.natCast_nonneg _)) hb)

/-- `int()` of a non-negative finite double is non-negative. -/
theorem truncD_nonneg (m e : ℤ) (hm : 0 ≤ m) {z : ℤ}
    (h : truncD (.finite m e) = some z) : 0 ≤ z := by
  replace h : (if (0 : ℤ) ≤ e then some (m * ((2 ^ e.toNat : ℕ) : ℤ))
      else if 0 ≤ m then some ((m.natAbs / 2 ^ (-e).toNat : ℕ) : ℤ)
      else some (-((m.natAbs / 2 ^ (-e).toNat : ℕ) : ℤ))) = some z := h
  by_cases h0 : (0 : ℤ) ≤ e
  · rw [if_pos h0] at h
    injection h with h1
    subst h1
    exact mul_nonneg hm (Int.natCast_nonneg _)
  · rw [if_neg h0, if_pos hm] at h
    injection h with h1
    subst h1
    exact Int.natCast_nonneg _

/-- When the rule-5 arithmetic on a parsed price returns at all, the
resulting contribution is non-negative. -/
theorem r5term_nonneg {s : String} {z : ℤ}
    (h : r5term (floatOfStr s) = some z) : 0 ≤ z := by
  rcases floatOfStr_shape s with hs | ⟨m, e, hs⟩
  · rw [hs, show r5term PyFloat.posInf = none from by decide] at h
    exact Option.noConfusion h
  · rw [hs] at h
    unfold r5term at h
    rw [d0_2_eq, mulD_finite] at h
    rcases roundInt_shape ((m : ℤ) * 3602879701896397) (e + -54)
        (mul_nonneg (Int.natCast_nonneg _) (by norm_num)) with h1 | ⟨m1, e1, h1⟩
    · rw [h1, show addD PyFloat.posInf d0_99 = PyFloat.posInf from by decide,
          show truncD PyFloat.posInf = none from rfl] at h
      exact Option.noConfusion h
    · rw [h1, d0_99_eq] at h
      rcases addD_shape (m1 : ℤ) e1 4458563631096791 (-52)
          (Int.natCast_nonneg _) (by norm_num) with h2 | ⟨m3, e3, h2⟩
      · rw [h2, show truncD PyFloat.posInf = none from rfl] at h
        exact Option.noConfusion h
      · rw [h2] at h
        exact truncD_nonneg (m3 : ℤ) e3 (Int.natCast_nonneg _) h

/-- A successful `floatParse` returns the parsed value of a
format-valid string. -/
theorem floatParse_ok {s : String} {p : PyFloat}
    (h : floatParse s = some p) : priceFormatOk s = true ∧ p = floatOfStr s := by
  unfold floatParse at h
  by_cases hf : priceFormatOk s = true
  · rw [if_pos hf] at h
    injection h with h1
    exact ⟨hf, h1.symm⟩
  · rw [if_neg hf] at h
    exact Option.noConfusion h

/-- The rule-5 loop can only grow a non-negative accumulator. -/
theorem descriptionLoop_nonneg : ∀ {its : List Item} {acc z : ℤ},
    descriptionLoop its acc = some z → 0 ≤ acc → 0 ≤ z := by
  intro its
  induction its with
  | nil =>
    intro acc z h hacc
    unfold descriptionLoop at h
    injection h with h1
    subst h1
    exact hacc
  | cons hd tl ih =>
    intro acc z h hacc
    unfold descriptionLoop at h
    by_cases h3 : ((pyStrip hd.shortDescription).length % 3 == 0) = true
    · rw [if_pos h3] at h
      cases hp : floatParse hd.price with
      | none =>
        rw [hp] at h
        exact Option.noConfusion (show (none : Option ℤ) = some z from h)
      | some p =>
        rw [hp] at h
        replace h : (match r5term p with
            | some w => descriptionLoop tl (acc + w)
            | none => none) = some z := h
        cases hr : r5term p with
        | none =>
          rw [hr] at h
          exact Option.noConfusion (show (none : Option ℤ) = some z from h)
        | some w =>
          rw [hr] at h
          replace h : descriptionLoop tl (acc + w) = some z := h
          have hpe := (floatParse_ok hp).2
          have hw : 0 ≤ w := r5term_nonneg (by rw [← hpe]; exact hr)
          exact ih h (by omega)
    · rw [if_neg h3] at h
      exact ih h hacc

/-- The rule-5 loop computes the accumulated sum of the per-item
program-side contributions, provided every qualifying price has the
validated shape and every item contribution is defined. -/
theorem descriptionLoop_eq : ∀ {its : List Item},
    (∀ it ∈ its, (pyStrip it.shortDescription).length % 3 = 0 → priceFormatOk it.price = true) →
    (∀ it ∈ its, (r5double it).isSome = true) →
    ∀ acc : ℤ, descriptionLoop its acc
      = some (acc + (its.map fun it => (r5double it).getD 0).sum) := by
  intro its
  induction its with
  | nil => intro _ _ acc; simp [descriptionLoop]
  | cons hd tl ih =>
    intro h1 h2 acc
    unfold descriptionLoop
    by_cases h3 : ((pyStrip hd.shortDescription).length % 3 == 0) = true
    · rw [if_pos h3]
      have hfmt : priceFormatOk hd.price = true :=
        h1 hd (List.mem_cons_self hd tl) (by simpa using h3)
      have hparse : floatParse hd.price = some (floatOfStr hd.price) := by
        unfold floatParse; rw [if_pos hfmt]
      have hdd : r5double hd = r5term (floatOfStr hd.price) := by
        unfold r5double
        rw [if_pos h3, hparse]
        rfl
      have hsome : (r5term (floatOfStr hd.price)).isSome = true := by
        rw [← hdd]; exact h2 hd (List.mem_cons_self hd tl)
      obtain ⟨w, hw⟩ := Option.isSome_iff_exists.mp hsome
      rw [hparse]
      show (match r5term (floatOfStr hd.price) with
          | some w => descriptionLoop tl (acc + w)
          | none => none) = _
      rw [hw]
      show descriptionLoop tl (acc + w) = _
      rw [ih (fun it hm h' => h1 it (List.mem_cons_of_mem _ hm) h')
          (fun it hm => h2 it (List.mem_cons_of_mem _ hm))]
      have hget : (r5double hd).getD 0 = w := by rw [hdd, hw]; rfl
      simp only [List.map_cons, List.sum_cons, hget, Option.some.injEq]
      omega
    · rw [if_neg h3]
      rw [ih (fun it hm h' => h1 it (List.mem_cons_of_mem _ hm) h')
          (fun it hm => h2 it (List.mem_cons_of_mem _ hm))]
      have hget : (r5double hd).getD 0 = 0 := by
        unfold r5double; rw [if_neg h3]; rfl
      simp only [List.map_cons, List.sum_cons, hget, Option.some.injEq]
      omega

/-- A successful `_validate_item_price` means the price string had the
accepted shape. -/
theorem _validate_item_price_ok {ps ds : String} {p : PyFloat}
    (h : _validate_item_price ps ds = .ok p) : priceFormatOk ps = true := by
  unfold _validate_item_price floatParse at h
  by_cases hp : priceFormatOk ps
  · exact hp
  · simp [hp] at h

/-- A successful `_validate_purchase_date` means the date parses. -/
theorem _validate_purchase_date_ok {s : String} {u : Unit}
    (h : _validate_purchase_date s = .ok u) : (parseDate s).isSome = true := by
  unfold _validate_purchase_date at h
  by_cases hp : (parseDate s).isSome
  · exact hp
  · simp [hp] at h

/-- A successful `_validate_purchase_time` means the time parses. -/
theorem _validate_purchase_time_ok {s : String} {u : Unit}
    (h : _validate_purchase_time s = .ok u) : (parseTime s).isSome = true := by
  unfold _validate_purchase_time at h
  by_cases hp : (parseTime s).isSome
  · exact hp
  · simp [hp] at h

/-- A successful `_validate_total` means the total string had the
accepted shape. -/
theorem _validate_total_ok {s : String} {sum : PyFloat} {u : Unit}
    (h : _validate_total s sum = .ok u) : priceFormatOk s = true := by
  unfold _validate_total at h
  by_cases hp : priceFormatOk s
  · exact hp
  · simp [hp] at h

/-- A successful items loop means every item price had the accepted
shape. -/
theorem itemsLoop_ok_priceFormat : ∀ {its : List Item} {acc n : PyFloat},
    itemsLoop its acc = .ok n → ∀ it ∈ its, priceFormatOk it.price = true := by
  intro its
  induction its with
  | nil => intro acc n h it hit; simp at hit
  | cons hd tl ih =>
    intro acc n h it hit
    unfold itemsLoop at h
    split at h
    · simp at h
    · split at h
      · simp at h
      · rename_i p hp
        rcases List.mem_cons.mp hit with heq | hmem
        · rw [heq]; exact _validate_item_price_ok hp
        · exact ih h it hmem

/-- A successful `_validate_items_array` means every item price had
the accepted shape. -/
theorem _validate_items_array_ok {its : List Item} {n : PyFloat}
    (h : _validate_items_array its = .ok n) :
    ∀ it ∈ its, priceFormatOk it.price = true := by
  unfold _validate_items_array at h
  by_cases hlen : its.length < 1
  · simp [hlen] at h
  · rw [if_neg hlen] at h
    exact itemsLoop_ok_priceFormat h

/-- Everything a successful validation guarantees about the raw fields:
all five are present, date and time parse, and the total and every item
price have the accepted two-decimal shape. -/
theorem validate_ok_extract {r : CandidateReceipt}
    (h : validate_receipt r = .ok true) :
    ∃ rt pd pt its tt, r.retailer = some rt ∧ r.purchaseDate = some pd ∧
      r.purchaseTime = some pt ∧ r.items = some its ∧ r.total = some tt ∧
      (parseDate pd).isSome = true ∧ (parseTime pt).isSome = true ∧
      (∀ it ∈ its, priceFormatOk it.price = true) ∧ priceFormatOk tt = true := by
  unfold validate_receipt at h
  split at h <;> try contradiction
  rename_i rt pd pt its tt hrt hpd hpt hits htt
  split at h <;> try contradiction
  rename_i uret hret
  split at h <;> try contradiction
  rename_i udate hdate
  split at h <;> try contradiction
  rename_i utime htime
  split at h <;> try contradiction
  rename_i isum hitems
  split at h <;> try contradiction
  rename_i utot htotal
  exact ⟨rt, pd, pt, its, tt, hrt, hpd, hpt, hits, htt,
    _validate_purchase_date_ok hdate, _validate_purchase_time_ok htime,
    _validate_items_array_ok hitems, _validate_total_ok htotal⟩

/-- On a receipt with all five fields present, the scorer is the bind
chain of the four fallible rule results around the three pure ones
(definitional unfolding of the `do` block). -/
theorem calculate_points_mk (retailer total : String) (items : List Item) (pd pt : String) :
    calculate_points ⟨some retailer, some pd, some pt, some items, some total⟩
      = (_get_total_amount_points total).bind fun p23 =>
        (_get_description_length_points items).bind fun p5 =>
        (_get_purchase_date_points pd).bind fun p6 =>
        (_get_purchase_time_points pt).bind fun p7 =>
          some ((_get_retailer_name_points retailer : ℤ) + (p23 : ℤ)
            + (_get_items_count_points items : ℤ) + p5 + (p6 : ℤ) + (p7 : ℤ)) := rfl

/-- Definitional unfolding of the state-threaded scorer on a receipt
with all five fields present. -/
theorem calculate_points_st_mk (retailer total : String) (items : List Item) (pd pt : String) :
    calculate_points_st ⟨some retailer, some pd, some pt, some items, some total⟩
      = (_get_total_amount_points total).bind fun p23 =>
        (_get_description_length_points items).bind fun p5 =>
        (_get_purchase_date_points pd).bind fun p6 =>
        (_get_purchase_time_points pt).bind fun p7 =>
          some (((_get_retailer_name_points retailer : ℤ) + (p23 : ℤ)
            + (_get_items_count_points items : ℤ) + p5 + (p6 : ℤ) + (p7 : ℤ)),
            (⟨some retailer, some pd, some pt, some items, some total⟩ : CandidateReceipt)) := rfl

/-- On a validated receipt whose rule-5 contributions are all defined,
the scorer returns a value. -/
theorem calculate_points_some_of_validate {r : CandidateReceipt} {its : List Item}
    (hits : r.items = some its)
    (h : validate_receipt r = .ok true)
    (hfin : ∀ it ∈ its, (r5double it).isSome = true) :
    ∃ n : Int, calculate_points r = some n := by
  obtain ⟨rt, pd, pt, its2, tt, hrt, hpd, hpt, hits2, htt, hdate, htime, hprices, htotal⟩ :=
    validate_ok_extract h
  rw [hits] at hits2
  injection hits2 with hsame
  subst hsame
  obtain ⟨d, hd⟩ := Option.isSome_iff_exists.mp hdate
  obtain ⟨tm, htm⟩ := Option.isSome_iff_exists.mp htime
  have h23 : _get_total_amount_points tt
      = some ((if isIntegerD (floatOfStr tt) then 50 else 0)
          + (if quarterModZeroD (floatOfStr tt) then 25 else 0)) := by
    unfold _get_total_amount_points floatParse
    rw [if_pos htotal]
    rfl
  have h5 : _get_description_length_points its
      = some ((its.map fun it => (r5double it).getD 0).sum) := by
    have := descriptionLoop_eq (fun it hm _ => hprices it hm) hfin 0
    simpa [_get_description_length_points] using this
  have h6 : _get_purchase_date_points pd = some (if d.2.2 % 2 == 1 then 6 else 0) := by
    unfold _get_purchase_date_points
    rw [hd]
    rfl
  have h7 : _get_purchase_time_points pt
      = some (if 14 ≤ tm.1 && tm.1 < 16 then 10 else 0) := by
    unfold _get_purchase_time_points
    rw [htm]
    rfl
  have hr : r = ⟨some rt, some pd, some pt, some its, some tt⟩ := by
    rcases r with ⟨a, b, c, dd, e⟩
    rw [show a = some rt from hrt, show b = some pd from hpd, show c = some pt from hpt,
        show dd = some its from hits, show e = some tt from htt]
  rw [hr, calculate_points_mk, h23, h5, h6, h7]
  simp only [Option.some_bind]
  exact ⟨_, rfl⟩

/-- Whenever the scorer returns at all, the returned integer is
non-negative: six of the rules contribute natural numbers and the
rule-5 loop only grows a non-negative accumulator. -/
theorem calculate_points_nonneg {r : CandidateReceipt} {n : ℤ}
    (h : calculate_points r = some n) : 0 ≤ n := by
  obtain ⟨rt, pd, pt, its, tt⟩ := r
  rcases rt with _ | retailer
  · exact Option.noConfusion h
  rcases tt with _ | total
  · exact Option.noConfusion h
  rcases its with _ | items
  · exact Option.noConfusion h
  rcases pd with _ | date
  · exact Option.noConfusion h
  rcases pt with _ | time
  · exact Option.noConfusion h
  rw [calculate_points_mk] at h
  rcases h23 : _get_total_amount_points total with _ | p23 <;> rw [h23] at h
  · exact Option.noConfusion h
  rcases h5 : _get_description_length_points items with _ | p5 <;> rw [h5] at h
  · exact Option.noConfusion h
  rcases h6 : _get_purchase_date_points date with _ | p6 <;> rw [h6] at h
  · exact Option.noConfusion h
  rcases h7 : _get_purchase_time_points time with _ | p7 <;> rw [h7] at h
  · exact Option.noConfusion h
  replace h : (some ((_get_retailer_name_points retailer : ℤ) + (p23 : ℤ)
      + (_get_items_count_points items : ℤ) + p5 + (p6 : ℤ) + (p7 : ℤ)) : Option ℤ)
      = some n := h
  injection h with hsum
  have hp5 : 0 ≤ p5 :=
    descriptionLoop_nonneg (show descriptionLoop items 0 = some p5 from h5) (le_refl 0)
  omega

/-- The state-threaded scorer returns exactly the plain scorer's result
paired with the untouched input receipt. -/
theorem calculate_points_st_spec (r : CandidateReceipt) :
    calculate_points_st r = (calculate_points r).map fun p => (p, r) := by
  obtain ⟨rt, pd, pt, its, tt⟩ := r
  cases rt with
  | none => rfl
  | some retailer =>
  cases tt with
  | none => rfl
  | some total =>
  cases its with
  | none => rfl
  | some items =>
  cases pd with
  | none => rfl
  | some date =>
  cases pt with
  | none => rfl
  | some time =>
  rw [calculate_points_mk, calculate_points_st_mk]
  rcases _get_total_amount_points total with _ | p23 <;>
    rcases _get_description_length_points items with _ | p5 <;>
      rcases _get_purchase_date_points date with _ | p6 <;>
        rcases _get_purchase_time_points time with _ | p7 <;> simp

/-- Validating `targetReceipt` with the retailer replaced by an
arbitrary string reduces to the retailer format check alone, since
every other field of the probe receipt is valid. -/
theorem validate_retailerProbe (s : String) :
    validate_receipt (retailerProbe s)
      = if retailerFormatOk s then .ok true else .error .invalidRetailerFormat := by
  have hmk : retailerProbe s = (⟨some s, some "2022-01-01", some "13:01",
      some [⟨"Mountain Dew 12PK", "6.49"⟩, ⟨"Emils Cheese Pizza", "12.25"⟩],
      some "18.74"⟩ : CandidateReceipt) := rfl
  by_cases h : retailerFormatOk s
  · rw [if_pos h, hmk]
    unfold validate_receipt
    dsimp only
    rw [show _validate_retailer s = .ok () from by simp [_validate_retailer, h]]
    decide
  · rw [if_neg h, hmk]
    unfold validate_receipt
    dsimp only
    rw [show _validate_retailer s = .error .invalidRetailerFormat from by
      simp [_validate_retailer, h]]

/-- C1 (counterexample): on the spec's end-to-end receipt the scorer
returns 20, not the claimed 14 — the retailer contributes 6, the item
pair 5, the length-18 description 3, and the odd purchase day 6. -/
theorem c1_counterexample :
    validate_receipt targetReceipt = .ok true
    ∧ calculate_points targetReceipt = some 20
    ∧ calculate_points targetReceipt ≠ some 14 := by decide

/-- C1 (amended): the end-to-end Target receipt validates successfully
and `calculate_points` returns exactly 20 (the spec's total of 14 omits
the 6 points of the odd-day rule R6 for purchase day 1). -/
theorem c1_end_to_end :
    validate_receipt targetReceipt = .ok true
    ∧ calculate_points targetReceipt = some 20 := by decide

/-- C2 (counterexample): the two-item receipt with total `18.75`
against an item sum of `18.74` is accepted by `validate_receipt`; it
does not fail with a total mismatch. -/
theorem c2_counterexample :
    validate_receipt targetReceipt1875 = .ok true := by decide

/-- C2 (amended): with declared total `18.75` and the double item sum
`18.740000000000002` the discrepancy is just under `0.01`, inside the
tolerance — the mismatch error fires only for a difference strictly
greater than the double `0.01`, as a two-cent discrepancy shows. -/
theorem c2_total_within_tolerance :
    validate_receipt targetReceipt1875 = .ok true
    ∧ priceCents "18.75" = 1875
    ∧ priceCents "6.49" + priceCents "12.25" = 1874
    ∧ _validate_total "18.75" (itemsSumDouble ["6.49", "12.25"]) = .ok ()
    ∧ _validate_total "18.76" (itemsSumDouble ["6.49", "12.25"])
        = .error (.totalMismatch (floatOfStr "18.76") (itemsSumDouble ["6.49", "12.25"])) := by
  decide

/-- C3 (counterexample): a retailer containing a tab — a character
outside the claimed class `[A-Za-z0-9 _\-&]` — is nevertheless accepted
by `validate_receipt`, because the code's `\s` admits any whitespace. -/
theorem c3_counterexample :
    validate_receipt (retailerProbe "A\tB") = .ok true
    ∧ '\t' ∈ "A\tB".data
    ∧ claimRetailerChar '\t' = false := by decide

/-- C3 (amended): the retailer field is accepted iff it is non-empty
and every character is in the class `[\w\s\-&]` of the source — word
characters, any whitespace (tab, newline and the control separators
included), hyphens and ampersands; otherwise validation fails with the
invalid-retailer error. -/
theorem c3_retailer_class (s : String) :
    (validate_receipt (retailerProbe s) = .ok true
      ↔ (s.data ≠ [] ∧ ∀ c ∈ s.data, retailerChar c = true))
    ∧ (¬ (s.data ≠ [] ∧ ∀ c ∈ s.data, retailerChar c = true)
        → validate_receipt (retailerProbe s) = .error .invalidRetailerFormat) := by
  have hfmt : retailerFormatOk s = true
      ↔ (s.data ≠ [] ∧ ∀ c ∈ s.data, retailerChar c = true) := by
    simp [retailerFormatOk, List.all_eq_true]
  constructor
  · constructor
    · intro hok
      rw [validate_retailerProbe] at hok
      by_cases h : retailerFormatOk s
      · exact hfmt.mp h
      · rw [if_neg h] at hok; cases hok
    · intro hc
      rw [validate_retailerProbe, if_pos (hfmt.mpr hc)]
  · intro hc
    have hne : ¬ (retailerFormatOk s = true) := fun hh => hc (hfmt.mp hh)
    rw [validate_retailerProbe, if_neg hne]

/-- C3 (witness): the amended characterization applied at an accepted
retailer with a control-character whitespace and at a rejected one. -/
theorem c3_witness :
    validate_receipt (retailerProbe "M&M\x1cCorner Market") = .ok true
    ∧ validate_receipt (retailerProbe "Caf!") = .error .invalidRetailerFormat :=
  ⟨(c3_retailer_class "M&M\x1cCorner Market").1.mpr (by decide),
   (c3_retailer_class "Caf!").2 (by decide)⟩

/-- C4: a candidate receipt missing any required field fails with the
missing-field error naming the first absent field in the fixed order
retailer, purchaseDate, purchaseTime, items, total — no later format
or cross-field check runs (the same error is what the presence check
alone produces). -/
theorem c4_missing_field_first (r : CandidateReceipt)
    (h : r.retailer = none ∨ r.purchaseDate = none ∨ r.purchaseTime = none
      ∨ r.items = none ∨ r.total = none) :
    validate_receipt r = .error (.missingField
      (if r.retailer = none then "retailer"
       else if r.purchaseDate = none then "purchaseDate"
       else if r.purchaseTime = none then "purchaseTime"
       else if r.items = none then "items" else "total"))
    ∧ _validate_required_fields r = .error (.missingField
      (if r.retailer = none then "retailer"
       else if r.purchaseDate = none then "purchaseDate"
       else if r.purchaseTime = none then "purchaseTime"
       else if r.items = none then "items" else "total")) := by
  obtain ⟨rt, pd, pt, its, tt⟩ := r
  cases rt <;> cases pd <;> cases pt <;> cases its <;> cases tt <;>
    simp_all [validate_receipt, _validate_required_fields]

/-- C4 (witness): a receipt with an invalid retailer present, the date
absent, an unparseable time and an empty items array fails with the
missing-field error for `purchaseDate` — the later checks never ran. -/
theorem c4_witness :
    validate_receipt ⟨some "!!!", none, some "99:99", some [], none⟩
      = .error (.missingField "purchaseDate") := by
  have h := c4_missing_field_first ⟨some "!!!", none, some "99:99", some [], none⟩
    (Or.inr (Or.inl rfl))
  simpa using h.1

/-- C5 (counterexample): rule 5 does not compute the exact truncation
of `unitPrice × 0.2 + 0.99` on every validated receipt: the receipt
with the single item `("ABC", "515.05")` validates, the program's
double arithmetic gives 103 points, but the exact truncation is 104. -/
theorem c5_counterexample :
    validate_receipt receipt515 = .ok true
    ∧ _get_description_length_points [⟨"ABC", "515.05"⟩] = some 103
    ∧ r5contrib ⟨"ABC", "515.05"⟩ = 104 := by
  refine ⟨by decide, by decide, ?_⟩
  rw [r5contrib_eq_r5code]
  decide

/-- C5 (amended): rule R5 contributes, for each item whose trimmed
description length is a multiple of 3, the value
`int(float(price) * 0.2 + 0.99)` evaluated in binary64, and 0 for
every other item; this agrees with the exact truncation at the claim's
examples — price 10.00 at length 3 or 6 gives 2 points, price 12.25 at
length 6 gives 3 — but not universally: at price 515.05 the program
gives 103 while the exact truncation gives 104. -/
theorem c5_description_length_points :
    (∀ items : List Item,
        (∀ it ∈ items, (pyStrip it.shortDescription).length % 3 = 0
          → priceFormatOk it.price = true) →
        (∀ it ∈ items, (r5double it).isSome = true) →
        _get_description_length_points items
          = some ((items.map fun it => (r5double it).getD 0).sum))
    ∧ r5double ⟨"ABC", "10.00"⟩ = some 2
    ∧ r5double ⟨"ABCDEF", "10.00"⟩ = some 2
    ∧ r5double ⟨"ABCDEF", "12.25"⟩ = some 3
    ∧ r5double ⟨"AB", "10.00"⟩ = some 0
    ∧ r5contrib ⟨"ABC", "10.00"⟩ = 2
    ∧ r5contrib ⟨"ABCDEF", "12.25"⟩ = 3
    ∧ r5double ⟨"ABC", "515.05"⟩ = some 103
    ∧ r5contrib ⟨"ABC", "515.05"⟩ = 104 := by
  refine ⟨?_, by decide, by decide, by decide, by decide, ?_, ?_, by decide, ?_⟩
  · intro items h1 h2
    have := descriptionLoop_eq h1 h2 0
    simpa [_get_description_length_points] using this
  · rw [r5contrib_eq_r5code]; decide
  · rw [r5contrib_eq_r5code]; decide
  · rw [r5contrib_eq_r5code]; decide

/-- C5 (witness): the amended characterization applied to a concrete
two-item list, one qualifying and one not. -/
theorem c5_witness :
    _get_description_length_points [⟨"ABC", "10.00"⟩, ⟨"AB", "0.50"⟩]
      = some ((([⟨"ABC", "10.00"⟩, ⟨"AB", "0.50"⟩] : List Item).map
          fun it => (r5double it).getD 0).sum) :=
  c5_description_length_points.1 _ (by decide) (by decide)

/-- C6: rule R7 contributes exactly 10 points iff the parsed hour of
the purchase time lies in `[14, 16)`, and 0 otherwise; in particular
14:00 and 15:59 give 10 while 13:59 and 16:00 give 0. -/
theorem c6_time_points :
    (∀ (t : String) (hr mi : Nat), parseTime t = some (hr, mi) →
        ((_get_purchase_time_points t = some 10 ↔ 14 ≤ hr ∧ hr < 16)
          ∧ (¬ (14 ≤ hr ∧ hr < 16) → _get_purchase_time_points t = some 0)))
    ∧ _get_purchase_time_points "14:00" = some 10
    ∧ _get_purchase_time_points "15:59" = some 10
    ∧ _get_purchase_time_points "13:59" = some 0
    ∧ _get_purchase_time_points "16:00" = some 0 := by
  refine ⟨?_, by decide, by decide, by decide, by decide⟩
  intro t hr mi hparse
  by_cases hcond : 14 ≤ hr ∧ hr < 16 <;>
    simp [_get_purchase_time_points, hparse, Bool.and_eq_true, decide_eq_true_eq, hcond]

/-- C6 (witness): the R7 characterization applied at 15:59. -/
theorem c6_witness :
    parseTime "15:59" = some (15, 59)
    ∧ (_get_purchase_time_points "15:59" = some 10 ↔ 14 ≤ 15 ∧ 15 < 16) :=
  ⟨by decide, (c6_time_points.1 "15:59" 15 59 (by decide)).1⟩

/-- C7 (counterexample): a receipt whose 310-digit price and total
overflow `float()` to infinity passes the validator (the tolerance
comparison on the nan difference is false), and the scorer then raises
in rule 5 (`int()` of an infinite value) instead of returning an
integer. -/
theorem c7_counterexample :
    validate_receipt infReceiptA = .ok true
    ∧ calculate_points infReceiptA = none := by decide

/-- C7 (amended): on every receipt accepted by the validator, whenever
`calculate_points` does return an integer, that integer is
non-negative; on some accepted receipts (overflowing prices) it raises
instead of returning. -/
theorem c7_nonneg (r : CandidateReceipt) (n : ℤ)
    (h1 : validate_receipt r = .ok true)
    (h2 : calculate_points r = some n) : 0 ≤ n :=
  calculate_points_nonneg h2

/-- C7 (witness): the non-negativity applied at the end-to-end
receipt. -/
theorem c7_witness : (0 : ℤ) ≤ 20 :=
  c7_nonneg targetReceipt 20 (by decide) (by decide)

/-- C8 (counterexample): a validated receipt on which the scorer
raises: the 310-digit price parses to infinity, validation accepts
(nan tolerance comparison), and rule 5 reaches `int()` of an infinite
value, an `OverflowError`. -/
theorem c8_counterexample :
    validate_receipt infReceiptB = .ok true
    ∧ (calculate_points infReceiptB).isSome = false := by decide

/-- C8 (amended): on a receipt accepted by the validator the scorer
raises no exception provided every per-item rule-5 computation is
defined — i.e. no qualifying item price overflowed to infinity; the
rule-5 `int()` on an infinite value is the one reachable exception
under the validated-input precondition. -/
theorem c8_no_exception (r : CandidateReceipt) (items : List Item)
    (hits : r.items = some items)
    (h : validate_receipt r = .ok true)
    (hfin : ∀ it ∈ items, (r5double it).isSome = true) :
    (calculate_points r).isSome = true := by
  obtain ⟨n, hn⟩ := calculate_points_some_of_validate hits h hfin
  rw [hn]
  rfl

/-- C8 (witness): the scorer succeeds on the validated end-to-end
receipt, whose rule-5 computations are all defined. -/
theorem c8_witness : (calculate_points targetReceipt).isSome = true :=
  c8_no_exception targetReceipt
    [⟨"Mountain Dew 12PK", "6.49"⟩, ⟨"Emils Cheese Pizza", "12.25"⟩]
    rfl (by decide) (by decide)

/-- C9: the scorer never modifies its receipt argument — the
state-threaded translation returns the input receipt unchanged — and
its result coincides with the plain (pure) scorer, so repeated calls
on the same receipt return the same integer. -/
theorem c9_scorer_pure (r : CandidateReceipt) (p : Int) (r2 : CandidateReceipt)
    (h : calculate_points_st r = some (p, r2)) :
    r2 = r ∧ calculate_points r = some p := by
  rw [calculate_points_st_spec] at h
  cases hc : calculate_points r with
  | none => rw [hc] at h; cases h
  | some q =>
    rw [hc] at h
    simp only [Option.map_some', Option.some.injEq, Prod.mk.injEq] at h
    exact ⟨h.2.symm, congrArg some h.1⟩

/-- C9 (witness): the threaded scorer on the end-to-end receipt
returns 20 and the untouched receipt. -/
theorem c9_witness :
    targetReceipt = targetReceipt ∧ calculate_points targetReceipt = some 20 :=
  c9_scorer_pure targetReceipt 20 targetReceipt (by decide)

/-- C10: the validator never returns `False`: whenever it returns
normally the returned Boolean is `True`; every failure is a raised
error instead. -/
theorem c10_validate_never_false (r : CandidateReceipt) (b : Bool)
    (h : validate_receipt r = .ok b) : b = true := by
  unfold validate_receipt at h
  repeat' split at h
  all_goals simp_all

/-- C10 (witness): instantiated at the end-to-end receipt. -/
theorem c10_witness : true = true :=
  c10_validate_never_false targetReceipt true (by decide)

end ReceiptProcessor
